import Mathlib

/-!
Verification development for the MCP-Python-concepts teaching repository.

The repository's scripts (in particular `Module_00_Introduction_to_MCP.py`
and `Module_02_Security.py`) define small simulation classes:
`PromptShield`, `ToolDefinition`, `MCPHost`/`MCPClient`/`MCPServer`,
`PKCEGenerator`, `OAuth2Server`, `ConsentManager`, `AuditLogger`.
This file gives a shallow embedding of those classes and proves the
specification claims about them.

Modelling conventions:
* Python strings are Lean `String`s (the scripts use ASCII data only, so
  `str.lower()` is modelled by `Char.toLower`).
* Python dictionaries are association lists with last-write-wins lookup
  (`pyGet`), insertion-with-overwrite (`pyInsert`) and key deletion
  (`pyErase`); a Python dict never holds two bindings for one key, which
  the operations below preserve.
* Python values (`Any`) are modelled by the inductive `Val`; the Python
  value `None` is `Val.none`.
* A `raise ValueError(msg)` is modelled by `Except.error msg`.
* `datetime.now()` and the `secrets` random generators are
  nondeterministic inputs; they are passed as explicit arguments
  (`now`, `auth_code`, `access_token`, ...).
* `float` division `len(detected)/len(SUSPICIOUS_PATTERNS)` is modelled
  as exact division in `ℚ`.
-/

/-! ## Python string helpers -/

/-- `str.lower()` restricted to ASCII, which is all the scripts use. -/
def pyLower (s : String) : String := String.mk (s.data.map Char.toLower)

/-- The characters matched by the regex class `\s` (ASCII). -/
def pySpace (c : Char) : Bool :=
  c = ' ' || c = '\t' || c = '\n' || c = '\r' || c = Char.ofNat 11 || c = Char.ofNat 12

/-! ## A tiny regex engine, just large enough for `PromptShield`

`re.search` looks for a match anywhere in the string.  The nine
`SUSPICIOUS_PATTERNS` only use literal characters, `.*` (any characters
except newline, possibly none) and `\s*` (any whitespace, possibly
none), so matchers for exactly those shapes are defined below, in
continuation style: `k` receives the rest of the input after the piece
of pattern under consideration has matched. -/

/-- Match the literal `cs` at the start of the input, then continue. -/
def litThen (cs : List Char) (k : List Char → Bool) (s : List Char) : Bool :=
  cs.isPrefixOf s && k (s.drop cs.length)

/-- Match `.*` followed by the continuation: either continue right here,
or consume one non-newline character and retry (regex `.` does not match
a newline). -/
def dotStarThen (k : List Char → Bool) : List Char → Bool
  | [] => k []
  | c :: s => k (c :: s) || (c ≠ '\n' && dotStarThen k s)

/-- Match `\s*` followed by the continuation. -/
def wsStarThen (k : List Char → Bool) : List Char → Bool
  | [] => k []
  | c :: s => k (c :: s) || (pySpace c && wsStarThen k s)

/-- `re.search` style driver: try the matcher at every start position. -/
def searchAt (m : List Char → Bool) : List Char → Bool
  | [] => m []
  | c :: s => m (c :: s) || searchAt m s

/-- The trivial continuation: the rest of the pattern is empty. -/
def matchEnd : List Char → Bool := fun _ => true

/-- Python's `needle in hay` substring test on strings. -/
def pyContains (needle hay : String) : Bool :=
  searchAt (litThen needle.toList matchEnd) hay.toList

/-- A compiled suspicious pattern: its regex source text (what
`scan_content` appends to `detected_patterns`) and its matcher. -/
structure RePat where
  source : String
  accepts : List Char → Bool

/-- `re.search(pattern, s)` as a Bool. -/
def re_search (p : RePat) (s : String) : Bool := p.accepts s.toList

/-! ## `PromptShield` (Module_02_Security.py, Example 1) -/

namespace PromptShield

/-- The nine regexes of `PromptShield.SUSPICIOUS_PATTERNS`, in source
order.  Literal regexes match as substrings; the three non-literal ones
are compiled from `.*` and `\s*` pieces. -/
def SUSPICIOUS_PATTERNS : List RePat :=
  [ ⟨"ignore previous instructions",
      searchAt (litThen "ignore previous instructions".toList matchEnd)⟩,
    ⟨"ignore all previous",
      searchAt (litThen "ignore all previous".toList matchEnd)⟩,
    ⟨"disregard.*instructions",
      searchAt (litThen "disregard".toList
        (dotStarThen (litThen "instructions".toList matchEnd)))⟩,
    ⟨"new instructions:",
      searchAt (litThen "new instructions:".toList matchEnd)⟩,
    ⟨"system:\\s*you are now",
      searchAt (litThen "system:".toList
        (wsStarThen (litThen "you are now".toList matchEnd)))⟩,
    ⟨"forget everything",
      searchAt (litThen "forget everything".toList matchEnd)⟩,
    ⟨"your new role is",
      searchAt (litThen "your new role is".toList matchEnd)⟩,
    ⟨"send.*to.*http",
      searchAt (litThen "send".toList
        (dotStarThen (litThen "to".toList
          (dotStarThen (litThen "http".toList matchEnd)))))⟩,
    ⟨"exfiltrate",
      searchAt (litThen "exfiltrate".toList matchEnd)⟩ ]

/-- The dict returned by `PromptShield.scan_content`. -/
structure ScanResult where
  is_safe : Bool
  detected_patterns : List String
  risk_score : ℚ
  action : String

/-- `PromptShield.scan_content`: lowercase the content, collect the
patterns that `re.search` finds in it (the source's `for` loop that
appends each match is the `filter`), and assemble the result dict. -/
def scan_content (content : String) : ScanResult :=
  let content_lower := pyLower content
  let detected := SUSPICIOUS_PATTERNS.filter (fun p => re_search p content_lower)
  let is_malicious := decide (detected.length > 0)
  { is_safe := !is_malicious
    detected_patterns := detected.map RePat.source
    risk_score := (detected.length : ℚ) / (SUSPICIOUS_PATTERNS.length : ℚ)
    action := if is_malicious then "block" else "allow" }

end PromptShield

/-! ## Python values and dictionaries -/

/-- A Python value (`Any`): `Val.none` is Python's `None`. -/
inductive Val where
  | none
  | bool (b : Bool)
  | int (n : Int)
  | str (s : String)
  | list (xs : List Val)
  | dict (kvs : List (String × Val))

/-- `d.get(k)` / `d[k]` on a Python dict: the binding for `k`, if any.
The dict operations below keep at most one binding per key. -/
def pyGet {α : Type} (d : List (String × α)) (k : String) : Option α :=
  match d.find? (fun kv => kv.1 == k) with
  | some kv => some kv.2
  | Option.none => Option.none

/-- `d[k] = v` on a Python dict: overwrite in place, else append. -/
def pyInsert {α : Type} (d : List (String × α)) (k : String) (v : α) :
    List (String × α) :=
  if d.any (fun kv => kv.1 == k) then
    d.map (fun kv => if kv.1 == k then (k, v) else kv)
  else d ++ [(k, v)]

/-- `del d[k]` on a Python dict. -/
def pyErase {α : Type} (d : List (String × α)) (k : String) :
    List (String × α) :=
  d.filter (fun kv => kv.1 != k)

/-- `str(v)` as used by the scripts' f-strings.  The scripts only ever
format `None`, strings and ints; container rendering is simplified (no
claim depends on it). -/
def pyStrOf : Val → String
  | Val.none => "None"
  | Val.bool true => "True"
  | Val.bool false => "False"
  | Val.int n => toString n
  | Val.str s => s
  | Val.list _ => "[...]"
  | Val.dict _ => "\x7b...\x7d"

/-- `str(x)` where `x` came from a `dict.get` (absent key prints as
`None`). -/
def pyStrOpt : Option Val → String
  | Option.none => "None"
  | some v => pyStrOf v

/-! ## Module_00_Introduction_to_MCP.py -/

namespace Module00

/-- The `MCPRequest` dataclass. -/
structure MCPRequest where
  jsonrpc : String
  method : String
  params : List (String × Val)
  id : Int

/-- The value of an `MCPResponse.error` field when it is not `None`:
a dict `{"code": ..., "message": ...}`. -/
structure ErrorObj where
  code : Int
  message : String

/-- The `MCPResponse` dataclass.  `result` is `Val.none` when the
Python field is `None`; `error` is `Option.none` when it is `None`. -/
structure MCPResponse where
  jsonrpc : String
  result : Val
  error : Option ErrorObj
  id : Int

/-- `create_tool_call_request`. -/
def create_tool_call_request (tool_name : String)
    (arguments : List (String × Val)) (request_id : Int) : MCPRequest :=
  { jsonrpc := "2.0"
    method := "tools/call"
    params := [("name", Val.str tool_name), ("arguments", Val.dict arguments)]
    id := request_id }

/-- `create_success_response`. -/
def create_success_response (result : Val) (request_id : Int) : MCPResponse :=
  { jsonrpc := "2.0", result := result, error := Option.none, id := request_id }

/-- `create_error_response`. -/
def create_error_response (error_code : Int) (error_message : String)
    (request_id : Int) : MCPResponse :=
  { jsonrpc := "2.0", result := Val.none
    error := some ⟨error_code, error_message⟩, id := request_id }

/-- A registered tool handler; a Python exception with message `e`
is `Except.error e`. -/
abbrev Handler := Val → Except String Val

/-- The `MCPServer` class: its name and its `tools` dict. -/
structure MCPServer where
  name : String
  tools : List (String × Handler)

/-- `MCPServer.handle_request`: look up `params["name"]` among the
registered tools; 404 if missing, 500 with the exception's message if
the handler raises, success response otherwise.  A non-string (or
absent) tool name is never a dict key, hence also 404. -/
def MCPServer.handle_request (srv : MCPServer) (request : MCPRequest) :
    MCPResponse :=
  let arguments := (pyGet request.params "arguments").getD (Val.dict [])
  match pyGet request.params "name" with
  | some (Val.str tool_name) =>
    match pyGet srv.tools tool_name with
    | some handler =>
      match handler arguments with
      | Except.ok result => create_success_response result request.id
      | Except.error e => create_error_response 500 e request.id
    | Option.none =>
      create_error_response 404
        ("Tool \x27" ++ tool_name ++ "\x27 not found") request.id
  | other =>
    create_error_response 404
      ("Tool \x27" ++ pyStrOpt other ++ "\x27 not found") request.id

/-- The `MCPClient` class: its `servers` dict and request counter. -/
structure MCPClient where
  servers : List (String × MCPServer)
  request_id : Int

/-- `MCPClient.call_tool`: bump the counter, build the request, send it
to the first registered server, and return `response.result`, or `None`
after printing when the response carries an error.  With no registered
server the source's `list(...)[0]` raises `IndexError`. -/
def MCPClient.call_tool (client : MCPClient) (tool_name : String)
    (arguments : List (String × Val)) : Except String Val × MCPClient :=
  let client' : MCPClient := { client with request_id := client.request_id + 1 }
  let request := create_tool_call_request tool_name arguments client'.request_id
  match client'.servers with
  | [] => (Except.error "IndexError: list index out of range", client')
  | s :: _ =>
    let response := s.2.handle_request request
    match response.error with
    | some _ => (Except.ok Val.none, client')
    | Option.none => (Except.ok response.result, client')

/-- The `MCPHost` class (e.g. the script's `claude_desktop`). -/
structure MCPHost where
  name : String
  client : MCPClient

/-- `MCPHost.ask_permission`: "simplified - always yes for demo". -/
def MCPHost.ask_permission (_host : MCPHost) (_question : String) : Bool :=
  true

/-- `MCPHost.user_request`: on a read-file request, ask permission and
call the `read_file` tool through the client; otherwise answer that the
request was not understood. -/
def MCPHost.user_request (host : MCPHost) (request : String) :
    Except String Val × MCPHost :=
  if pyContains "read" (pyLower request) && pyContains "file" (pyLower request) then
    let path := "/data/example.txt"
    let permission := host.ask_permission ("Allow reading " ++ path ++ "?")
    if !permission then
      (Except.ok (Val.str "Permission denied by user"), host)
    else
      let r := host.client.call_tool "read_file" [("path", Val.str path)]
      (r.1, { host with client := r.2 })
  else
    (Except.ok (Val.str "I don\x27t understand that request"), host)

/-- The script's `read_file_handler`: returns a dict describing the
simulated file contents (`time.sleep` has no observable effect). -/
def read_file_handler (args : Val) : Except String Val :=
  match args with
  | Val.dict d =>
    let path := pyGet d "path"
    Except.ok (Val.dict
      [ ("content", Val.str
          ("Contents of " ++ pyStrOpt path ++ ":\nLine 1\nLine 2\nLine 3")),
        ("size", Val.int 24),
        ("path", path.getD Val.none) ])
  | _ => Except.error "AttributeError: get"

/-- The script's `file_server` with `read_file` registered. -/
def file_server : MCPServer :=
  ⟨"FileOperations", [("read_file", read_file_handler)]⟩

/-- The script's `claude_desktop` host connected to `file_server`
through a client; the client's request counter is left arbitrary so the
claims hold at every point of the interaction. -/
def claude_desktop (rid : Int) : MCPHost :=
  ⟨"Claude Desktop", ⟨[("file_server", file_server)], rid⟩⟩

/-- A server whose registered handler returns Python `None` (a legal
handler for `register_tool`): `create_success_response(None, id)` then
leaves both `result` and `error` equal to `None`. -/
def none_result_server : MCPServer :=
  ⟨"NoneResult", [("t", fun _ => Except.ok Val.none)]⟩

/-- The `ToolParameter` dataclass (Example 3). -/
structure ToolParameter where
  name : String
  type : String
  description : String
  required : Bool
deriving DecidableEq

/-- The per-parameter dict `{"type": ..., "description": ...}` built by
`to_schema`. -/
structure PropertySchema where
  type : String
  description : String
deriving DecidableEq

/-- The `inputSchema` part of a tool schema. -/
structure InputSchema where
  type : String
  properties : List (String × PropertySchema)
  required : List String

/-- The dict returned by `ToolDefinition.to_schema`. -/
structure ToolSchema where
  name : String
  description : String
  inputSchema : InputSchema

/-- The `ToolDefinition` dataclass (Example 3 of Module 00). -/
structure ToolDefinition where
  name : String
  description : String
  parameters : List ToolParameter
  returns : String

/-- `ToolDefinition.to_schema`: the dict comprehension over
`self.parameters` is a left fold of Python dict insertion (a later
parameter with the same name overwrites the earlier entry). -/
def ToolDefinition.to_schema (td : ToolDefinition) : ToolSchema :=
  { name := td.name
    description := td.description
    inputSchema :=
      { type := "object"
        properties := td.parameters.foldl
          (fun d p => pyInsert d p.name ⟨p.type, p.description⟩) []
        required := (td.parameters.filter (fun p => p.required)).map
          (fun p => p.name) } }

/-- A definition with two parameters sharing the name "p": the dict
comprehension in `to_schema` keeps only the last one. -/
def dup_tool : ToolDefinition :=
  { name := "t"
    description := "d"
    parameters :=
      [ ⟨"p", "string", "first", true⟩, ⟨"p", "number", "second", false⟩ ]
    returns := "r" }

/-- The script's `read_file_tool` definition (used as a witness). -/
def read_file_tool : ToolDefinition :=
  { name := "read_file"
    description := "Read the complete contents of a file from the filesystem"
    parameters :=
      [ ⟨"path", "string", "Absolute or relative path to the file", true⟩,
        ⟨"encoding", "string", "File encoding (default: utf-8)", false⟩ ]
    returns := "string" }

end Module00

/-! ## SHA-256 and base64url (the stdlib calls made by PKCEGenerator)

`hashlib.sha256(...).digest()` and `base64.urlsafe_b64encode` are
implemented here over byte lists (`List Nat`, each element `< 256`),
with 32-bit words as `Nat` reduced mod `2^32` (FIPS 180-4). -/

/-- Truncate to a 32-bit word. -/
def w32 (n : Nat) : Nat := n % 4294967296

/-- Rotate a 32-bit word right by `n`. -/
def rotr32 (n x : Nat) : Nat := w32 ((x >>> n) ||| (x <<< (32 - n)))

/-- Big-endian bytes (most significant first) of `n`, width `k`. -/
def beBytes (k n : Nat) : List Nat :=
  (List.range k).map (fun i => (n >>> (8 * (k - 1 - i))) % 256)

/-- SHA-256 initial hash value. -/
def shaH0 : List Nat :=
  [1779033703, 3144134277, 1013904242, 2773480762,
   1359893119, 2600822924, 528734635, 1541459225]

/-- SHA-256 round constants. -/
def shaK : List Nat :=
  [1116352408, 1899447441, 3049323471, 3921009573, 961987163,
   1508970993, 2453635748, 2870763221, 3624381080, 310598401,
   607225278, 1426881987, 1925078388, 2162078206, 2614888103,
   3248222580, 3835390401, 4022224774, 264347078, 604807628,
   770255983, 1249150122, 1555081692, 1996064986, 2554220882,
   2821834349, 2952996808, 3210313671, 3336571891, 3584528711,
   113926993, 338241895, 666307205, 773529912, 1294757372,
   1396182291, 1695183700, 1986661051, 2177026350, 2456956037,
   2730485921, 2820302411, 3259730800, 3345764771, 3516065817,
   3600352804, 4094571909, 275423344, 430227734, 506948616,
   659060556, 883997877, 958139571, 1322822218, 1537002063,
   1747873779, 1955562222, 2024104815, 2227730452, 2361852424,
   2428436474, 2756734187, 3204031479, 3329325298]

/-- Bitwise complement within 32 bits. -/
def not32 (x : Nat) : Nat := x ^^^ 0xffffffff

/-- SHA-256 `Ch`. -/
def shaCh (x y z : Nat) : Nat := (x &&& y) ^^^ (not32 x &&& z)

/-- SHA-256 `Maj`. -/
def shaMaj (x y z : Nat) : Nat := (x &&& y) ^^^ (x &&& z) ^^^ (y &&& z)

/-- SHA-256 `Σ₀`. -/
def bsig0 (x : Nat) : Nat := rotr32 2 x ^^^ rotr32 13 x ^^^ rotr32 22 x

/-- SHA-256 `Σ₁`. -/
def bsig1 (x : Nat) : Nat := rotr32 6 x ^^^ rotr32 11 x ^^^ rotr32 25 x

/-- SHA-256 `σ₀`. -/
def ssig0 (x : Nat) : Nat := rotr32 7 x ^^^ rotr32 18 x ^^^ (x >>> 3)

/-- SHA-256 `σ₁`. -/
def ssig1 (x : Nat) : Nat := rotr32 17 x ^^^ rotr32 19 x ^^^ (x >>> 10)

/-- SHA-256 padding: `0x80`, zeros to 56 mod 64, then the bit length
as 8 big-endian bytes. -/
def sha256Pad (msg : List Nat) : List Nat :=
  let len := msg.length
  msg ++ [0x80] ++ List.replicate ((119 - len % 64) % 64) 0 ++ beBytes 8 (8 * len)

/-- The 16 big-endian 32-bit words of a 64-byte block. -/
def blockWords (block : List Nat) : List Nat :=
  (List.range 16).map (fun j =>
    (block.getD (4 * j) 0 <<< 24) + (block.getD (4 * j + 1) 0 <<< 16) +
    (block.getD (4 * j + 2) 0 <<< 8) + block.getD (4 * j + 3) 0)

/-- Extend 16 schedule words to 64. -/
def extendSchedule (ws : List Nat) : List Nat :=
  (List.range 48).foldl
    (fun acc _ =>
      let t := acc.length
      acc ++ [w32 (ssig1 (acc.getD (t - 2) 0) + acc.getD (t - 7) 0 +
                   ssig0 (acc.getD (t - 15) 0) + acc.getD (t - 16) 0)])
    ws

/-- One SHA-256 compression round: state `[a,b,c,d,e,f,g,h]`, input
`(Kₜ, Wₜ)`. -/
def shaRound (st : List Nat) (kw : Nat × Nat) : List Nat :=
  let a := st.getD 0 0
  let b := st.getD 1 0
  let c := st.getD 2 0
  let d := st.getD 3 0
  let e := st.getD 4 0
  let f := st.getD 5 0
  let g := st.getD 6 0
  let hh := st.getD 7 0
  let t1 := w32 (hh + bsig1 e + shaCh e f g + kw.1 + kw.2)
  let t2 := w32 (bsig0 a + shaMaj a b c)
  [w32 (t1 + t2), a, b, c, w32 (d + t1), e, f, g]

/-- Compress one 64-byte block into the running hash. -/
def processBlock (hs : List Nat) (block : List Nat) : List Nat :=
  let ws := extendSchedule (blockWords block)
  let st := (shaK.zip ws).foldl shaRound hs
  (hs.zip st).map (fun p => w32 (p.1 + p.2))

/-- `hashlib.sha256(msg).digest()`: the 32-byte SHA-256 digest. -/
def sha256 (msg : List Nat) : List Nat :=
  let padded := sha256Pad msg
  let finalH := (List.range (padded.length / 64)).foldl
    (fun hs i => processBlock hs ((padded.drop (64 * i)).take 64)) shaH0
  List.flatten (finalH.map (beBytes 4))

/-- UTF-8 encoding of one character (`str.encode()`). -/
def utf8EncodeChar (c : Char) : List Nat :=
  let n := c.toNat
  if n < 0x80 then [n]
  else if n < 0x800 then
    [0xC0 ||| (n >>> 6), 0x80 ||| (n &&& 0x3F)]
  else if n < 0x10000 then
    [0xE0 ||| (n >>> 12), 0x80 ||| ((n >>> 6) &&& 0x3F), 0x80 ||| (n &&& 0x3F)]
  else
    [0xF0 ||| (n >>> 18), 0x80 ||| ((n >>> 12) &&& 0x3F),
     0x80 ||| ((n >>> 6) &&& 0x3F), 0x80 ||| (n &&& 0x3F)]

/-- `s.encode()`: UTF-8 bytes of a string. -/
def utf8Bytes (s : String) : List Nat :=
  List.flatten (s.data.map utf8EncodeChar)

/-- The URL-safe base64 alphabet (RFC 4648 §5). -/
def b64Char (n : Nat) : Char :=
  "ABCDEFGHIJKLMNOPQRSTUVWXYZabcdefghijklmnopqrstuvwxyz0123456789-_".toList.getD n 'A'

/-- Encode one group of at most three bytes, `=`-padded. -/
def b64Group : List Nat → List Char
  | [b0, b1, b2] =>
    [b64Char (b0 >>> 2), b64Char (((b0 &&& 3) <<< 4) ||| (b1 >>> 4)),
     b64Char (((b1 &&& 15) <<< 2) ||| (b2 >>> 6)), b64Char (b2 &&& 63)]
  | [b0, b1] =>
    [b64Char (b0 >>> 2), b64Char (((b0 &&& 3) <<< 4) ||| (b1 >>> 4)),
     b64Char ((b1 &&& 15) <<< 2), '=']
  | [b0] =>
    [b64Char (b0 >>> 2), b64Char ((b0 &&& 3) <<< 4), '=', '=']
  | _ => []

/-- `base64.urlsafe_b64encode(bs).decode()`. -/
def urlsafe_b64encode (bs : List Nat) : List Char :=
  List.flatten (((List.range ((bs.length + 2) / 3)).map
    (fun i => (bs.drop (3 * i)).take 3)).map b64Group)

/-- `.rstrip('=')`. -/
def rstripEq (cs : List Char) : List Char :=
  (cs.reverse.dropWhile (fun c => c = '=')).reverse

/-! ## PKCEGenerator and OAuth2Server (Module_02_Security.py, Example 4) -/

namespace PKCEGenerator

/-- `PKCEGenerator.generate_code_challenge`: padding-stripped base64url
of the SHA-256 digest of the UTF-8 bytes of the verifier. -/
def generate_code_challenge (verifier : String) : String :=
  String.mk (rstripEq (urlsafe_b64encode (sha256 (utf8Bytes verifier))))

/-- `secrets.compare_digest` on (ASCII) strings: equality. -/
def compare_digest (a b : String) : Bool := a == b

/-- `PKCEGenerator.verify_pkce`: recompute the challenge and compare. -/
def verify_pkce (verifier challenge : String) : Bool :=
  compare_digest (generate_code_challenge verifier) challenge

end PKCEGenerator

namespace Module02

/-- A pending authorization stored by `OAuth2Server.authorize`
(`created_at` is the `datetime.now()` timestamp). -/
structure AuthData where
  client_id : String
  redirect_uri : String
  code_challenge : String
  created_at : Nat

/-- The token dict returned by `exchange_code_for_token`. -/
structure TokenData where
  access_token : String
  token_type : String
  expires_in : Nat
  scope : String
  issued_at : Nat

/-- What `issued_tokens[access_token]` stores: `client_id` merged with
the token dict. -/
structure IssuedEntry where
  client_id : String
  data : TokenData

/-- The `OAuth2Server` state: its two dicts. -/
structure OAuth2Server where
  pending_authorizations : List (String × AuthData)
  issued_tokens : List (String × IssuedEntry)

/-- `OAuth2Server.authorize`: reject any challenge method other than
`"S256"`, otherwise store the pending authorization under the freshly
generated code (`auth_code`, a `secrets` value, is an explicit input,
as is `now`). -/
def OAuth2Server.authorize (srv : OAuth2Server) (client_id redirect_uri
    code_challenge code_challenge_method auth_code : String) (now : Nat) :
    Except String String × OAuth2Server :=
  if code_challenge_method ≠ "S256" then
    (Except.error "Only S256 challenge method supported", srv)
  else
    (Except.ok auth_code,
     { srv with pending_authorizations :=
        (pyInsert srv.pending_authorizations auth_code
          ⟨client_id, redirect_uri, code_challenge, now⟩) })

/-- `OAuth2Server.exchange_code_for_token`: validate the code, the
client id and the PKCE challenge in that order, raising `ValueError` on
the first failure (leaving the server untouched); on success issue the
token (`access_token` is the explicit `secrets` input), record it and
delete the used authorization code. -/
def OAuth2Server.exchange_code_for_token (srv : OAuth2Server)
    (auth_code code_verifier client_id access_token : String) (now : Nat) :
    Except String TokenData × OAuth2Server :=
  match pyGet srv.pending_authorizations auth_code with
  | Option.none => (Except.error "Invalid authorization code", srv)
  | some auth_data =>
    if client_id ≠ auth_data.client_id then
      (Except.error "Client ID mismatch", srv)
    else if !PKCEGenerator.verify_pkce code_verifier auth_data.code_challenge then
      (Except.error "PKCE verification failed", srv)
    else
      let token_data : TokenData :=
        ⟨access_token, "Bearer", 3600, "files.read files.write", now⟩
      (Except.ok token_data,
       { pending_authorizations := pyErase srv.pending_authorizations auth_code
         issued_tokens := (pyInsert srv.issued_tokens access_token
           ⟨client_id, token_data⟩) })

/-- A server state holding one pending authorization whose challenge
was honestly derived from the verifier "ver" (used as a witness). -/
def pkce_demo_server : OAuth2Server :=
  ⟨[("codeA", ⟨"clientA", "https://server.com/callback",
      PKCEGenerator.generate_code_challenge "ver", 0⟩)], []⟩

/-- The `ConsentRequest` class (`requested_at` is the `datetime.now()`
timestamp). -/
structure ConsentRequest where
  operation : String
  resource : String
  description : String
  requested_at : Nat

/-- One entry of `ConsentManager.consent_history`. -/
structure ConsentRecord where
  operation : String
  resource : String
  decision : Bool
  timestamp : Nat
  remembered : Bool

/-- The `ConsentManager` state. -/
structure ConsentManager where
  consent_history : List ConsentRecord
  remembered_consents : List (String × Bool)

/-- The keyword list of `ConsentManager._simulate_user_decision`. -/
def suspicious_keywords : List String :=
  ["delete", "system", "password", "credential"]

/-- `ConsentManager._simulate_user_decision`: deny as soon as some
suspicious keyword occurs in the lowercased operation, else allow
(the source's early-`return False` loop is the `any`). -/
def ConsentManager._simulate_user_decision (request : ConsentRequest) : Bool :=
  let operation_lower := pyLower request.operation
  !(suspicious_keywords.any (fun keyword => pyContains keyword operation_lower))

/-- `ConsentManager.request_consent`: replay a remembered consent if
one exists for `operation:resource`; otherwise simulate the user's
decision, log it, and remember it when asked to. -/
def ConsentManager.request_consent (mgr : ConsentManager)
    (request : ConsentRequest) (remember : Bool) (now : Nat) :
    Bool × ConsentManager :=
  let consent_key := request.operation ++ ":" ++ request.resource
  match pyGet mgr.remembered_consents consent_key with
  | some decision => (decision, mgr)
  | Option.none =>
    let user_decision := ConsentManager._simulate_user_decision request
    let mgr' : ConsentManager :=
      { consent_history := mgr.consent_history ++
          [⟨request.operation, request.resource, user_decision, now, remember⟩]
        remembered_consents :=
          if remember then pyInsert mgr.remembered_consents consent_key user_decision
          else mgr.remembered_consents }
    (user_decision, mgr')

/-! ### The final "Security Report" lines of Module_02_Security.py

`AuditLogger` (Example 7) defines exactly the methods listed below;
the script's closing report nevertheless calls
`server.audit_logger.get_consent_report()` (line 1300), a method that
exists only on `ConsentManager`.  Python resolves method access
dynamically, so that line raises an uncaught `AttributeError` and the
script dies before printing the report.  The attribute lookup is
modelled explicitly. -/

/-- The attributes an `AuditLogger` instance actually has (its methods
and its `logs` field, from the class body of Example 7). -/
def auditLoggerAttributes : List String :=
  ["logs", "log_operation", "_print_log", "get_user_activity",
   "get_security_events", "export_logs"]

/-- Python attribute access on an `AuditLogger`: a name outside the
class body raises `AttributeError`. -/
def auditLoggerGetattr (name : String) : Except String Unit :=
  if auditLoggerAttributes.contains name then Except.ok ()
  else Except.error
    ("AttributeError: \x27AuditLogger\x27 object has no attribute \x27"
      ++ name ++ "\x27")

/-- The attribute accesses made on `server.audit_logger` by the
script's final report block (lines 1299-1305), in order; the block is
not wrapped in any `try/except`. -/
def module02SecurityReportStep : Except String Unit := do
  auditLoggerGetattr "get_consent_report"
  auditLoggerGetattr "get_security_events"
  auditLoggerGetattr "logs"

end Module02

/-! ## Theorems

Helper lemmas about the Python-dict operations come first, then one
theorem per specification claim (with witnesses and counterexamples
where required). -/

/-- C8: PKCE round-trip.  For every verifier string,
`verify_pkce(verifier, generate_code_challenge(verifier))` returns
`True`, because `verify_pkce` recomputes the padding-stripped base64url
encoding of SHA-256 of the verifier and compares it (via
`secrets.compare_digest`) with the given challenge. -/
theorem c8_pkce_round_trip (verifier : String) :
    PKCEGenerator.verify_pkce verifier
      (PKCEGenerator.generate_code_challenge verifier) = true := by
  simp [PKCEGenerator.verify_pkce, PKCEGenerator.compare_digest]

/-- C6: the claim that every script terminates without an uncaught
exception fails on the code: the final security-report block of
`Module_02_Security.py` (line 1300) calls
`server.audit_logger.get_consent_report()`, but `AuditLogger` defines
no such method (it belongs to `ConsentManager`), so the attribute
lookup raises an uncaught `AttributeError` and the script dies there.
The modelled report step evaluates to exactly that error. -/
theorem c6_module02_report_raises_attribute_error :
    Module02.module02SecurityReportStep =
      Except.error "AttributeError: \x27AuditLogger\x27 object has no attribute \x27get_consent_report\x27" := rfl

/-- C7: every `MCPRequest` produced by `create_tool_call_request` has
the JSON-RPC request shape: `jsonrpc` is `"2.0"`, `method` is
`"tools/call"`, `params` binds `"name"` to the given tool name and
`"arguments"` to the given arguments dict, and `id` is the given
request id. -/
theorem c7_create_tool_call_request_spec (tool_name : String)
    (arguments : List (String × Val)) (request_id : Int) :
    (Module00.create_tool_call_request tool_name arguments request_id).jsonrpc = "2.0" ∧
    (Module00.create_tool_call_request tool_name arguments request_id).method = "tools/call" ∧
    pyGet (Module00.create_tool_call_request tool_name arguments request_id).params "name" =
      some (Val.str tool_name) ∧
    pyGet (Module00.create_tool_call_request tool_name arguments request_id).params "arguments" =
      some (Val.dict arguments) ∧
    (Module00.create_tool_call_request tool_name arguments request_id).id = request_id := by
  refine ⟨rfl, rfl, ?_, ?_, rfl⟩ <;>
    simp [Module00.create_tool_call_request, pyGet, List.find?]

/-- C5 counterexample: the consent layer is not hard-coded to "always
allow".  For the `DELETE FILE` request of the script (which carries no
remembered consent), `ConsentManager.request_consent` returns `False`,
because `_simulate_user_decision` denies operations containing the
keyword "delete". -/
theorem c5_request_consent_denies_delete :
    pyGet (α := Bool) [] ("DELETE FILE" ++ ":" ++ "/important/data.txt") = Option.none ∧
    (Module02.ConsentManager.request_consent ⟨[], []⟩
      ⟨"DELETE FILE", "/important/data.txt", "AI wants to delete this file", 0⟩
      false 0).1 = false := ⟨rfl, by decide⟩

/-- C5 (amended): for every `ConsentRequest` with no remembered
consent, `ConsentManager.request_consent` returns `True` if and only
if none of the suspicious keywords ("delete", "system", "password",
"credential") occurs in the lowercased operation — not `True`
unconditionally. -/
theorem c5_request_consent_simulated (mgr : Module02.ConsentManager)
    (request : Module02.ConsentRequest) (remember : Bool) (now : Nat)
    (h : pyGet mgr.remembered_consents
      (request.operation ++ ":" ++ request.resource) = Option.none) :
    ((mgr.request_consent request remember now).1 = true ↔
      ∀ k ∈ Module02.suspicious_keywords,
        pyContains k (pyLower request.operation) = false) := by
  simp [Module02.ConsentManager.request_consent, h,
    Module02.ConsentManager._simulate_user_decision, List.any_eq_true]

/-- Witness for C5 at the script\x27s `READ FILE` request: no keyword
occurs, and consent is granted. -/
theorem c5_request_consent_simulated_witness :
    (Module02.ConsentManager.request_consent ⟨[], []⟩
      ⟨"READ FILE", "/data/report.txt", "AI wants to read this file to answer your question", 0⟩
      false 0).1 = true :=
  (c5_request_consent_simulated ⟨[], []⟩
    ⟨"READ FILE", "/data/report.txt", "AI wants to read this file to answer your question", 0⟩
    false 0 rfl).2 (by decide)

/-- C4: `MCPHost.ask_permission` returns `True` for every question
string, so `MCPHost.user_request` (on the script\x27s `claude_desktop`
host, at any request counter) never returns
`"Permission denied by user"`. -/
theorem c4_ask_permission_always_yes :
    (∀ host question, Module00.MCPHost.ask_permission host question = true) ∧
    ∀ rid request,
      ((Module00.claude_desktop rid).user_request request).1 ≠
        Except.ok (Val.str "Permission denied by user") := by
  refine ⟨fun _ _ => rfl, fun rid request => ?_⟩
  by_cases hcond : (pyContains "read" (pyLower request) &&
      pyContains "file" (pyLower request)) = true
  · simp [Module00.claude_desktop, Module00.MCPHost.user_request, hcond,
      Module00.MCPHost.ask_permission, Module00.MCPClient.call_tool,
      Module00.MCPServer.handle_request, Module00.create_tool_call_request,
      Module00.file_server, Module00.read_file_handler, pyGet,
      Module00.create_success_response]
  · simp [Module00.claude_desktop, Module00.MCPHost.user_request, hcond]

/-- C1: for every input string, `PromptShield.scan_content` lowercases
the content and checks it against the fixed list of nine
`SUSPICIOUS_PATTERNS`: `is_safe` is `True` iff no pattern matches,
`action` is `"block"` iff some pattern matches and `"allow"`
otherwise, `detected_patterns` is exactly the list of patterns that
match the lowercased content, and `risk_score` is the number of
matched patterns divided by nine. -/
theorem c1_scan_content_spec (content : String) :
    PromptShield.SUSPICIOUS_PATTERNS.length = 9 ∧
    ((PromptShield.scan_content content).is_safe = true ↔
      ∀ p ∈ PromptShield.SUSPICIOUS_PATTERNS, re_search p (pyLower content) = false) ∧
    ((PromptShield.scan_content content).action = "block" ↔
      ∃ p ∈ PromptShield.SUSPICIOUS_PATTERNS, re_search p (pyLower content) = true) ∧
    ((PromptShield.scan_content content).action = "allow" ↔
      ¬∃ p ∈ PromptShield.SUSPICIOUS_PATTERNS, re_search p (pyLower content) = true) ∧
    (PromptShield.scan_content content).detected_patterns =
      (PromptShield.SUSPICIOUS_PATTERNS.filter
        (fun p => re_search p (pyLower content))).map RePat.source ∧
    (PromptShield.scan_content content).risk_score =
      ((PromptShield.SUSPICIOUS_PATTERNS.filter
        (fun p => re_search p (pyLower content))).length : ℚ) / 9 := by
  have h9 : PromptShield.SUSPICIOUS_PATTERNS.length = 9 := rfl
  refine ⟨h9, ?_, ?_, ?_, rfl, ?_⟩
  · simp [PromptShield.scan_content, List.length_eq_zero, List.filter_eq_nil_iff,
      List.eq_nil_iff_forall_not_mem, List.mem_filter]
  · constructor
    · intro hb
      by_contra hno
      push_neg at hno
      have : (PromptShield.SUSPICIOUS_PATTERNS.filter
          (fun p => re_search p (pyLower content))) = [] := by
        simp [List.filter_eq_nil_iff]
        intro p hp
        simpa using hno p hp
      simp [PromptShield.scan_content, this] at hb
    · rintro ⟨p, hp, hm⟩
      have hpos : 0 < (PromptShield.SUSPICIOUS_PATTERNS.filter
          (fun p => re_search p (pyLower content))).length := by
        apply List.length_pos_of_mem (a := p)
        simp [List.mem_filter, hp, hm]
      simp [PromptShield.scan_content, hpos]
  · constructor
    · intro ha hex
      obtain ⟨p, hp, hm⟩ := hex
      have hpos : 0 < (PromptShield.SUSPICIOUS_PATTERNS.filter
          (fun p => re_search p (pyLower content))).length := by
        apply List.length_pos_of_mem (a := p)
        simp [List.mem_filter, hp, hm]
      simp [PromptShield.scan_content, hpos] at ha
    · intro hno
      push_neg at hno
      have hnil : (PromptShield.SUSPICIOUS_PATTERNS.filter
          (fun p => re_search p (pyLower content))) = [] := by
        simp only [List.filter_eq_nil_iff]
        intro p hp
        simpa using hno p hp
      simp [PromptShield.scan_content, hnil]
  · have h9q : (PromptShield.SUSPICIOUS_PATTERNS.length : ℚ) = 9 := by
      rw [h9]; norm_num
    simp [PromptShield.scan_content, h9q]


/-- Looking up a key that matches the head binding returns it. -/
theorem pyGet_cons_pos {α : Type} (kv : String × α) (d : List (String × α))
    (k : String) (h : (kv.1 == k) = true) : pyGet (kv :: d) k = some kv.2 := by
  simp [pyGet, List.find?, h]

/-- Looking up a key skips a non-matching head binding. -/
theorem pyGet_cons_neg {α : Type} (kv : String × α) (d : List (String × α))
    (k : String) (h : (kv.1 == k) = false) : pyGet (kv :: d) k = pyGet d k := by
  simp [pyGet, List.find?, h]

/-- After `del d[k]`, `k` is no longer in the dict. -/
theorem pyGet_pyErase_self {α : Type} (d : List (String × α)) (k : String) :
    pyGet (pyErase d k) k = Option.none := by
  induction d with
  | nil => rfl
  | cons kv d ih =>
    by_cases hk : (kv.1 == k) = true
    · have hkeq : kv.1 = k := by simpa using hk
      simpa [pyErase, hkeq, bne] using ih
    · have hkne : ¬kv.1 = k := by simpa using hk
      have hstep : pyErase (kv :: d) k = kv :: pyErase d k := by
        simp [pyErase, bne, hkne]
      rw [hstep, pyGet_cons_neg _ _ _ (by simpa using hk)]
      exact ih

/-- After `d[k] = v`, looking up `k` yields `v`. -/
theorem pyGet_pyInsert_self {α : Type} (d : List (String × α)) (k : String) (v : α) :
    pyGet (pyInsert d k v) k = some v := by
  induction d with
  | nil =>
    have hstep : pyInsert ([] : List (String × α)) k v = [(k, v)] := by simp [pyInsert]
    rw [hstep, pyGet_cons_pos _ _ _ (by simp)]
  | cons kv d ih =>
    by_cases hk : (kv.1 == k) = true
    · have hkeq : kv.1 = k := by simpa using hk
      have hstep : pyInsert (kv :: d) k v =
          (k, v) :: d.map (fun kv => if kv.1 == k then (k, v) else kv) := by
        simp [pyInsert, hkeq]
      rw [hstep, pyGet_cons_pos _ _ _ (by simp)]
    · have hkne : ¬kv.1 = k := by simpa using hk
      by_cases hd : (d.any fun kv => kv.1 == k) = true
      · have hstep : pyInsert (kv :: d) k v =
            kv :: d.map (fun kv => if kv.1 == k then (k, v) else kv) := by
          simp [pyInsert, hkne, hd]
        have htail : pyInsert d k v =
            d.map (fun kv => if kv.1 == k then (k, v) else kv) := by
          simp [pyInsert, hd]
        rw [hstep, pyGet_cons_neg _ _ _ (by simpa using hk), ← htail]
        exact ih
      · have hstep : pyInsert (kv :: d) k v = kv :: (d ++ [(k, v)]) := by
          simp [pyInsert, hkne, hd]
        have htail : pyInsert d k v = d ++ [(k, v)] := by
          simp [pyInsert, hd]
        rw [hstep, pyGet_cons_neg _ _ _ (by simpa using hk), ← htail]
        exact ih

/-- Inserting bindings with pairwise-distinct fresh keys appends them
in order (the shape of the `to_schema` dict comprehension). -/
theorem foldl_pyInsert_fresh (ps : List Module00.ToolParameter)
    (d : List (String × Module00.PropertySchema))
    (hd : ∀ p ∈ ps, (d.any fun kv => kv.1 == p.name) = false)
    (h : (ps.map Module00.ToolParameter.name).Nodup) :
    ps.foldl (fun d p => pyInsert d p.name ⟨p.type, p.description⟩) d =
      d ++ ps.map (fun p => (p.name, (⟨p.type, p.description⟩ : Module00.PropertySchema))) := by
  induction ps generalizing d with
  | nil => simp
  | cons p ps ih =>
    rw [List.map_cons, List.nodup_cons] at h
    obtain ⟨hnotin, htail⟩ := h
    have hfresh : (d.any fun kv => kv.1 == p.name) = false := hd p (by simp)
    have hstep : pyInsert d p.name (⟨p.type, p.description⟩ : Module00.PropertySchema) =
        d ++ [(p.name, ⟨p.type, p.description⟩)] := by
      simp [pyInsert, hfresh]
    have hd' : ∀ q ∈ ps, ((d ++ [(p.name, (⟨p.type, p.description⟩ : Module00.PropertySchema))]).any
        fun kv => kv.1 == q.name) = false := by
      intro q hq
      have h1 : (d.any fun kv => kv.1 == q.name) = false := hd q (by simp [hq])
      have h2 : (p.name == q.name) = false := by
        rw [beq_eq_false_iff_ne]
        intro hcontra
        exact hnotin (hcontra ▸ List.mem_map_of_mem Module00.ToolParameter.name hq)
      simp [List.any_append, h1, h2]
    rw [List.foldl_cons, hstep, ih _ hd' htail]
    simp

/-- With pairwise-distinct parameter names, looking a parameter's name
up in the comprehension-built dict yields its own schema entry. -/
theorem pyGet_map_params (ps : List Module00.ToolParameter)
    (h : (ps.map Module00.ToolParameter.name).Nodup)
    (p : Module00.ToolParameter) (hp : p ∈ ps) :
    pyGet (ps.map fun q => (q.name, (⟨q.type, q.description⟩ : Module00.PropertySchema)))
      p.name = some ⟨p.type, p.description⟩ := by
  induction ps with
  | nil => cases hp
  | cons q ps ih =>
    rw [List.map_cons, List.nodup_cons] at h
    obtain ⟨hnotin, htail⟩ := h
    rcases List.mem_cons.mp hp with hpq | hp'
    · subst hpq
      rw [List.map_cons, pyGet_cons_pos _ _ _ (by simp)]
    · have hne : (q.name == p.name) = false := by
        rw [beq_eq_false_iff_ne]
        intro hcontra
        exact hnotin (hcontra ▸ List.mem_map_of_mem Module00.ToolParameter.name hp')
      rw [List.map_cons, pyGet_cons_neg _ _ _ hne]
      exact ih htail hp'

/-- C3 (amended): for every Module-00 `ToolDefinition` whose parameter
names are pairwise distinct, `to_schema` is a pure reshaping: `name`
and `description` pass through unchanged, `inputSchema.properties`
maps each parameter\x27s name to exactly its type and description (in
parameter order), and `inputSchema.required` lists the names of
exactly the parameters with `required = True`, in parameter order.
The distinctness proviso is forced by the counterexample below. -/
theorem c3_to_schema_spec (td : Module00.ToolDefinition)
    (h : (td.parameters.map Module00.ToolParameter.name).Nodup) :
    td.to_schema.name = td.name ∧
    td.to_schema.description = td.description ∧
    td.to_schema.inputSchema.type = "object" ∧
    td.to_schema.inputSchema.properties =
      td.parameters.map (fun p => (p.name, (⟨p.type, p.description⟩ : Module00.PropertySchema))) ∧
    (∀ p ∈ td.parameters,
      pyGet td.to_schema.inputSchema.properties p.name = some ⟨p.type, p.description⟩) ∧
    td.to_schema.inputSchema.required =
      (td.parameters.filter (fun p => p.required)).map Module00.ToolParameter.name := by
  have hprops : td.to_schema.inputSchema.properties =
      td.parameters.map (fun p => (p.name, (⟨p.type, p.description⟩ : Module00.PropertySchema))) := by
    have hfold := foldl_pyInsert_fresh td.parameters [] (fun p _ => rfl) h
    simpa [Module00.ToolDefinition.to_schema] using hfold
  refine ⟨rfl, rfl, rfl, hprops, ?_, rfl⟩
  intro p hp
  rw [hprops]
  exact pyGet_map_params td.parameters h p hp

/-- Witness for C3 at the script\x27s `read_file_tool` (parameters
`path` and `encoding`). -/
theorem c3_to_schema_spec_witness :
    (Module00.read_file_tool.parameters.map Module00.ToolParameter.name).Nodup ∧
    ∀ p ∈ Module00.read_file_tool.parameters,
      pyGet Module00.read_file_tool.to_schema.inputSchema.properties p.name =
        some ⟨p.type, p.description⟩ :=
  ⟨by decide, (c3_to_schema_spec Module00.read_file_tool (by decide)).2.2.2.2.1⟩

/-- C3 counterexample: with two parameters sharing the name "p", the
dict comprehension keeps only the last one, so `properties` does not
map each parameter\x27s name to its own type and description. -/
theorem c3_to_schema_duplicate_counterexample :
    ¬ ∀ p ∈ Module00.dup_tool.parameters,
      pyGet Module00.dup_tool.to_schema.inputSchema.properties p.name =
        some ⟨p.type, p.description⟩ := by
  intro hall
  have h1 := hall ⟨"p", "string", "first", true⟩ (by decide)
  have h2 : pyGet Module00.dup_tool.to_schema.inputSchema.properties "p" =
      some ⟨"number", "second"⟩ := by decide
  exact absurd (h2.symm.trans h1) (by decide)

/-- C2: `OAuth2Server.exchange_code_for_token` raises `ValueError` iff
the code is not pending, or the client id differs from the stored one,
or the base64url-encoded SHA-256 hash of the presented verifier
differs from the stored challenge; a PKCE failure raises with message
"PKCE verification failed", and otherwise a token dict is returned
with the fresh `access_token`, `token_type` `"Bearer"` and
`expires_in` 3600. -/
theorem c2_exchange_code_for_token_spec (srv : Module02.OAuth2Server)
    (auth_code code_verifier client_id access_token : String) (now : Nat) :
    (pyGet srv.pending_authorizations auth_code = Option.none →
      (srv.exchange_code_for_token auth_code code_verifier client_id access_token now).1 =
        Except.error "Invalid authorization code") ∧
    (∀ ad, pyGet srv.pending_authorizations auth_code = some ad →
      client_id ≠ ad.client_id →
      (srv.exchange_code_for_token auth_code code_verifier client_id access_token now).1 =
        Except.error "Client ID mismatch") ∧
    (∀ ad, pyGet srv.pending_authorizations auth_code = some ad →
      client_id = ad.client_id →
      PKCEGenerator.generate_code_challenge code_verifier ≠ ad.code_challenge →
      (srv.exchange_code_for_token auth_code code_verifier client_id access_token now).1 =
        Except.error "PKCE verification failed") ∧
    (∀ ad, pyGet srv.pending_authorizations auth_code = some ad →
      client_id = ad.client_id →
      PKCEGenerator.generate_code_challenge code_verifier = ad.code_challenge →
      ∃ td, (srv.exchange_code_for_token auth_code code_verifier client_id access_token now).1 =
          Except.ok td ∧
        td.access_token = access_token ∧ td.token_type = "Bearer" ∧ td.expires_in = 3600) ∧
    ((∃ e, (srv.exchange_code_for_token auth_code code_verifier client_id access_token now).1 =
        Except.error e) ↔
      pyGet srv.pending_authorizations auth_code = Option.none ∨
      ∃ ad, pyGet srv.pending_authorizations auth_code = some ad ∧
        (client_id ≠ ad.client_id ∨
         PKCEGenerator.generate_code_challenge code_verifier ≠ ad.code_challenge)) := by
  refine ⟨?_, ?_, ?_, ?_, ?_⟩
  · intro h
    simp [Module02.OAuth2Server.exchange_code_for_token, h]
  · intro ad h hne
    simp [Module02.OAuth2Server.exchange_code_for_token, h, hne]
  · intro ad h heq hneq
    have hb : (PKCEGenerator.generate_code_challenge code_verifier == ad.code_challenge) = false :=
      beq_eq_false_iff_ne.mpr hneq
    simp [Module02.OAuth2Server.exchange_code_for_token, h, heq,
      PKCEGenerator.verify_pkce, PKCEGenerator.compare_digest, hb]
  · intro ad h heq hok
    refine ⟨⟨access_token, "Bearer", 3600, "files.read files.write", now⟩, ?_, rfl, rfl, rfl⟩
    simp [Module02.OAuth2Server.exchange_code_for_token, h, heq,
      PKCEGenerator.verify_pkce, PKCEGenerator.compare_digest, hok]
  · constructor
    · rintro ⟨e, he⟩
      rcases hga : pyGet srv.pending_authorizations auth_code with _ | ad
      · exact Or.inl rfl
      · by_cases hc : client_id = ad.client_id
        · by_cases hv : PKCEGenerator.generate_code_challenge code_verifier = ad.code_challenge
          · exfalso
            simp [Module02.OAuth2Server.exchange_code_for_token, hga, hc,
              PKCEGenerator.verify_pkce, PKCEGenerator.compare_digest, hv] at he
          · exact Or.inr ⟨ad, rfl, Or.inr hv⟩
        · exact Or.inr ⟨ad, rfl, Or.inl hc⟩
    · rintro (hnone | ⟨ad, hga, hbad⟩)
      · exact ⟨"Invalid authorization code", by
          simp [Module02.OAuth2Server.exchange_code_for_token, hnone]⟩
      · by_cases hc : client_id = ad.client_id
        · rcases hbad with hc' | hv
          · exact absurd hc hc'
          · refine ⟨"PKCE verification failed", ?_⟩
            have hb : (PKCEGenerator.generate_code_challenge code_verifier ==
                ad.code_challenge) = false := beq_eq_false_iff_ne.mpr hv
            simp [Module02.OAuth2Server.exchange_code_for_token, hga, hc,
              PKCEGenerator.verify_pkce, PKCEGenerator.compare_digest, hb]
        · exact ⟨"Client ID mismatch", by
            simp [Module02.OAuth2Server.exchange_code_for_token, hga, hc]⟩

/-- Witness for C2: exchanging against a server with no pending
authorizations raises "Invalid authorization code". -/
theorem c2_exchange_code_for_token_spec_witness :
    ((Module02.OAuth2Server.mk [] []).exchange_code_for_token
      "code" "verifier" "client" "token" 0).1 =
      Except.error "Invalid authorization code" :=
  (c2_exchange_code_for_token_spec ⟨[], []⟩ "code" "verifier" "client" "token" 0).1 rfl

/-- C10: authorization codes are single-use and exchange is atomic:
when `exchange_code_for_token` raises, the server state is unchanged;
on success the code is no longer pending, the token is recorded under
the new `access_token` with the client id, and a second exchange with
the same code raises `ValueError("Invalid authorization code")`. -/
theorem c10_exchange_atomic_single_use (srv : Module02.OAuth2Server)
    (auth_code code_verifier client_id access_token : String) (now : Nat) :
    ((∃ e, (srv.exchange_code_for_token auth_code code_verifier client_id access_token now).1 =
        Except.error e) →
      (srv.exchange_code_for_token auth_code code_verifier client_id access_token now).2 = srv) ∧
    (∀ td, (srv.exchange_code_for_token auth_code code_verifier client_id access_token now).1 =
        Except.ok td →
      pyGet (srv.exchange_code_for_token auth_code code_verifier client_id access_token
        now).2.pending_authorizations auth_code = Option.none ∧
      pyGet (srv.exchange_code_for_token auth_code code_verifier client_id access_token
        now).2.issued_tokens access_token = some ⟨client_id, td⟩ ∧
      ∀ verifier2 client2 token2 now2,
        (((srv.exchange_code_for_token auth_code code_verifier client_id access_token
          now).2.exchange_code_for_token auth_code verifier2 client2 token2 now2)).1 =
          Except.error "Invalid authorization code") := by
  rcases hga : pyGet srv.pending_authorizations auth_code with _ | ad
  · refine ⟨?_, ?_⟩
    · intro _
      simp [Module02.OAuth2Server.exchange_code_for_token, hga]
    · intro td h
      simp [Module02.OAuth2Server.exchange_code_for_token, hga] at h
  · by_cases hc : client_id = ad.client_id
    · by_cases hv : PKCEGenerator.verify_pkce code_verifier ad.code_challenge = true
      · have hstate : (srv.exchange_code_for_token auth_code code_verifier client_id
            access_token now).2 =
            ⟨pyErase srv.pending_authorizations auth_code,
             pyInsert srv.issued_tokens access_token
               ⟨client_id, ⟨access_token, "Bearer", 3600, "files.read files.write", now⟩⟩⟩ := by
          simp [Module02.OAuth2Server.exchange_code_for_token, hga, hc, hv]
        refine ⟨?_, ?_⟩
        · rintro ⟨e, he⟩
          simp [Module02.OAuth2Server.exchange_code_for_token, hga, hc, hv] at he
        · intro td h
          simp [Module02.OAuth2Server.exchange_code_for_token, hga, hc, hv] at h
          subst h
          rw [hstate]
          refine ⟨pyGet_pyErase_self _ _, pyGet_pyInsert_self _ _ _, ?_⟩
          intro verifier2 client2 token2 now2
          simp [Module02.OAuth2Server.exchange_code_for_token, pyGet_pyErase_self]
      · have hv' : PKCEGenerator.verify_pkce code_verifier ad.code_challenge = false := by
          simpa using hv
        refine ⟨?_, ?_⟩
        · intro _
          simp [Module02.OAuth2Server.exchange_code_for_token, hga, hc, hv']
        · intro td h
          simp [Module02.OAuth2Server.exchange_code_for_token, hga, hc, hv'] at h
    · refine ⟨?_, ?_⟩
      · intro _
        simp [Module02.OAuth2Server.exchange_code_for_token, hga, hc]
      · intro td h
        simp [Module02.OAuth2Server.exchange_code_for_token, hga, hc] at h

/-- Witness for C10: a concrete successful exchange (challenge honestly
derived from the verifier "ver"), after which the code is gone and a
second exchange fails. -/
theorem c10_exchange_atomic_single_use_witness :
    pyGet ((Module02.pkce_demo_server.exchange_code_for_token
      "codeA" "ver" "clientA" "tokA" 5).2).pending_authorizations "codeA" = Option.none ∧
    (((Module02.pkce_demo_server.exchange_code_for_token
      "codeA" "ver" "clientA" "tokA" 5).2).exchange_code_for_token
        "codeA" "ver2" "clientA" "tok2" 6).1 =
      Except.error "Invalid authorization code" := by
  have h : (Module02.pkce_demo_server.exchange_code_for_token
      "codeA" "ver" "clientA" "tokA" 5).1 =
      Except.ok ⟨"tokA", "Bearer", 3600, "files.read files.write", 5⟩ := by
    simp [Module02.pkce_demo_server, Module02.OAuth2Server.exchange_code_for_token,
      pyGet, List.find?, PKCEGenerator.verify_pkce, PKCEGenerator.compare_digest]
  have hmain := (c10_exchange_atomic_single_use Module02.pkce_demo_server
    "codeA" "ver" "clientA" "tokA" 5).2 _ h
  exact ⟨hmain.1, hmain.2.2 "ver2" "clientA" "tok2" 6⟩

/-- C9 (amended): for every `MCPServer` and `MCPRequest`,
`handle_request` returns a response whose `id` equals the request\x27s
id; `error` carries code 404 when the named tool is not registered
(also when `params` names no tool), code 500 with the exception\x27s
message when the registered handler raises, and otherwise `result` is
the handler\x27s return value with `error` `None`; whenever `error` is
set `result` is `None`, so exactly one of the two is `None` provided
the handler\x27s return value is not itself `None` (the proviso the
counterexample below forces). -/
theorem c9_handle_request_spec (srv : Module00.MCPServer)
    (request : Module00.MCPRequest) :
    (srv.handle_request request).id = request.id ∧
    (srv.handle_request request).jsonrpc = "2.0" ∧
    ((srv.handle_request request).error.isSome →
      (srv.handle_request request).result = Val.none) ∧
    ((∀ n, pyGet request.params "name" ≠ some (Val.str n)) →
      (srv.handle_request request).error = some ⟨404,
        "Tool \x27" ++ pyStrOpt (pyGet request.params "name") ++ "\x27 not found"⟩) ∧
    (∀ n, pyGet request.params "name" = some (Val.str n) →
      pyGet srv.tools n = Option.none →
      (srv.handle_request request).error = some ⟨404,
        "Tool \x27" ++ n ++ "\x27 not found"⟩) ∧
    (∀ n handler e, pyGet request.params "name" = some (Val.str n) →
      pyGet srv.tools n = some handler →
      handler ((pyGet request.params "arguments").getD (Val.dict [])) = Except.error e →
      (srv.handle_request request).error = some ⟨500, e⟩ ∧
      (srv.handle_request request).result = Val.none) ∧
    (∀ n handler v, pyGet request.params "name" = some (Val.str n) →
      pyGet srv.tools n = some handler →
      handler ((pyGet request.params "arguments").getD (Val.dict [])) = Except.ok v →
      (srv.handle_request request).result = v ∧
      (srv.handle_request request).error = Option.none ∧
      (v ≠ Val.none →
        ¬((srv.handle_request request).result = Val.none))) := by
  rcases hname : pyGet request.params "name" with _ | val
  · refine ⟨?_, ?_, ?_, ?_, ?_, ?_, ?_⟩ <;>
      simp [Module00.MCPServer.handle_request, hname,
        Module00.create_error_response, pyStrOpt]
  · cases val with
    | str n =>
      rcases htool : pyGet srv.tools n with _ | handler
      · refine ⟨?_, ?_, ?_, ?_, ?_, ?_, ?_⟩
        · simp [Module00.MCPServer.handle_request, hname, htool,
            Module00.create_error_response]
        · simp [Module00.MCPServer.handle_request, hname, htool,
            Module00.create_error_response]
        · simp [Module00.MCPServer.handle_request, hname, htool,
            Module00.create_error_response]
        · intro hno
          exact absurd rfl (hno n)
        · intro n' h1 h2
          obtain rfl : n = n' := by simpa using h1
          simp [Module00.MCPServer.handle_request, hname, htool,
            Module00.create_error_response]
        · intro n' handler e h1 h2 h3
          obtain rfl : n = n' := by simpa using h1
          rw [htool] at h2
          cases h2
        · intro n' handler v h1 h2 h3
          obtain rfl : n = n' := by simpa using h1
          rw [htool] at h2
          cases h2
      · rcases hres : handler ((pyGet request.params "arguments").getD (Val.dict []))
            with e | v
        · refine ⟨?_, ?_, ?_, ?_, ?_, ?_, ?_⟩
          · simp [Module00.MCPServer.handle_request, hname, htool, hres,
              Module00.create_error_response]
          · simp [Module00.MCPServer.handle_request, hname, htool, hres,
              Module00.create_error_response]
          · simp [Module00.MCPServer.handle_request, hname, htool, hres,
              Module00.create_error_response]
          · intro hno
            exact absurd rfl (hno n)
          · intro n' h1 h2
            obtain rfl : n = n' := by simpa using h1
            rw [htool] at h2
            cases h2
          · intro n' handler' e' h1 h2 h3
            obtain rfl : n = n' := by simpa using h1
            rw [htool] at h2
            obtain rfl : handler = handler' := by simpa using h2
            rw [hres] at h3
            obtain rfl : e = e' := by simpa using h3
            simp [Module00.MCPServer.handle_request, hname, htool, hres,
              Module00.create_error_response]
          · intro n' handler' v h1 h2 h3
            obtain rfl : n = n' := by simpa using h1
            rw [htool] at h2
            obtain rfl : handler = handler' := by simpa using h2
            rw [hres] at h3
            cases h3
        · refine ⟨?_, ?_, ?_, ?_, ?_, ?_, ?_⟩
          · simp [Module00.MCPServer.handle_request, hname, htool, hres,
              Module00.create_success_response]
          · simp [Module00.MCPServer.handle_request, hname, htool, hres,
              Module00.create_success_response]
          · simp [Module00.MCPServer.handle_request, hname, htool, hres,
              Module00.create_success_response]
          · intro hno
            exact absurd rfl (hno n)
          · intro n' h1 h2
            obtain rfl : n = n' := by simpa using h1
            rw [htool] at h2
            cases h2
          · intro n' handler' e h1 h2 h3
            obtain rfl : n = n' := by simpa using h1
            rw [htool] at h2
            obtain rfl : handler = handler' := by simpa using h2
            rw [hres] at h3
            cases h3
          · intro n' handler' v' h1 h2 h3
            obtain rfl : n = n' := by simpa using h1
            rw [htool] at h2
            obtain rfl : handler = handler' := by simpa using h2
            rw [hres] at h3
            obtain rfl : v = v' := by simpa using h3
            refine ⟨?_, ?_, ?_⟩
            · simp [Module00.MCPServer.handle_request, hname, htool, hres,
                Module00.create_success_response]
            · simp [Module00.MCPServer.handle_request, hname, htool, hres,
                Module00.create_success_response]
            · intro hv hcontra
              apply hv
              have : (srv.handle_request request).result = v := by
                simp [Module00.MCPServer.handle_request, hname, htool, hres,
                  Module00.create_success_response]
              rw [this] at hcontra
              exact hcontra
    | none =>
      refine ⟨?_, ?_, ?_, ?_, ?_, ?_, ?_⟩ <;>
        simp [Module00.MCPServer.handle_request, hname,
          Module00.create_error_response, pyStrOpt, pyStrOf]
    | bool b =>
      refine ⟨?_, ?_, ?_, ?_, ?_, ?_, ?_⟩ <;>
        simp [Module00.MCPServer.handle_request, hname,
          Module00.create_error_response, pyStrOpt, pyStrOf]
    | int m =>
      refine ⟨?_, ?_, ?_, ?_, ?_, ?_, ?_⟩ <;>
        simp [Module00.MCPServer.handle_request, hname,
          Module00.create_error_response, pyStrOpt, pyStrOf]
    | list xs =>
      refine ⟨?_, ?_, ?_, ?_, ?_, ?_, ?_⟩ <;>
        simp [Module00.MCPServer.handle_request, hname,
          Module00.create_error_response, pyStrOpt, pyStrOf]
    | dict kvs =>
      refine ⟨?_, ?_, ?_, ?_, ?_, ?_, ?_⟩ <;>
        simp [Module00.MCPServer.handle_request, hname,
          Module00.create_error_response, pyStrOpt, pyStrOf]

/-- Witness for C9: calling an unregistered tool on the script\x27s
`file_server` yields the 404 error response. -/
theorem c9_handle_request_spec_witness :
    (Module00.file_server.handle_request
      (Module00.create_tool_call_request "db_query" [] 7)).error =
      some ⟨404, "Tool \x27db_query\x27 not found"⟩ :=
  (c9_handle_request_spec Module00.file_server
    (Module00.create_tool_call_request "db_query" [] 7)).2.2.2.2.1 "db_query" rfl rfl

/-- C9 counterexample: a registered handler returning Python `None`
produces a response in which `result` and `error` are both `None`, so
"exactly one of result and error is None" fails as stated. -/
theorem c9_handle_request_none_result_counterexample :
    (Module00.none_result_server.handle_request
      (Module00.create_tool_call_request "t" [] 1)).result = Val.none ∧
    (Module00.none_result_server.handle_request
      (Module00.create_tool_call_request "t" [] 1)).error = Option.none :=
  ⟨rfl, rfl⟩

/-- Witness for C4 at the script\x27s actual user request. -/
theorem c4_ask_permission_always_yes_witness :
    ((Module00.claude_desktop 0).user_request
      "Read the file /data/example.txt and summarize it").1 ≠
      Except.ok (Val.str "Permission denied by user") :=
  c4_ask_permission_always_yes.2 0 "Read the file /data/example.txt and summarize it"
